import Mathlib

/-!
Shallow embedding of the sitemap-generation core of the film_press_monitoring
repository: the two near-duplicate `generate_sitemap` functions, one in
`main.py` (namespace `MainPy` below) and one in `generate_sitemap.py`
(namespace `SitemapPy` below).

Modelling conventions:
* Python strings are Lean `String`; `str.startswith` and the `in` substring
  test are modelled by executable character-list functions (`strStarts`,
  `strHasSub`).
* `urljoin(base_domain, href)` is an external collaborator (`urllib`), modelled
  by an abstract parameter `resolve : String → String` standing for the partial
  application `urljoin(base_domain, ·)`.
* `requests.get` + `raise_for_status` + `BeautifulSoup` parsing are modelled by
  a `FetchOutcome`: a successful fetch-and-parse yields the page's anchor href
  attributes in document order; `requestError` is a raised
  `requests.RequestException` (network error or non-success status);
  `parseError` is an exception raised by the HTML parser, which is *not* a
  `requests.RequestException`.
* A function that can let an exception escape returns `Except Unit (List
  String)`: `.error ()` is an unhandled exception propagating to the caller.
* Python's `visited` set of strings is a `List String` used only through
  membership; Python `int` is `Int`.
-/

/-- The base domain hardcoded as `base_domain = "https://www.kino.de"` in both
source functions. -/
def base_domain : String := "https://www.kino.de"

/-- The path marker `'/news/'` both source functions require as a substring. -/
def newsMarker : String := "/news/"

/-- Boolean test that `pat` occurs as a contiguous sublist, modelling Python's
`pat in s` substring operator on the character lists. -/
def hasSubList (pat : List Char) : List Char → Bool
  | [] => pat.isPrefixOf []
  | c :: rest => pat.isPrefixOf (c :: rest) || hasSubList pat rest

/-- Python `s.startswith(pat)`. -/
def strStarts (s pat : String) : Bool := pat.data.isPrefixOf s.data

/-- Python `pat in s` (substring containment). -/
def strHasSub (s pat : String) : Bool := hasSubList pat.data s.data

/-- Model of `is_valid_url(url, base_domain)` from `generate_sitemap.py`
(lines 29-40): a plain string-prefix test `url.startswith(base_domain)`. -/
def is_valid_url (url base_domain : String) : Bool := strStarts url base_domain

/-- Outcome of the single fetch of the seed URL followed by parsing:
`success hrefs` gives the href attributes of the page's anchors in document
order; `requestError` is a raised `requests.RequestException`; `parseError` is
an exception raised while parsing the fetched content (not a
`requests.RequestException`). -/
inductive FetchOutcome where
  | success (hrefs : List String)
  | requestError
  | parseError

namespace MainPy

/-- The anchor loop of `generate_sitemap` in `main.py` (lines 42-48): for each
href in document order, `full_url = urljoin(base_domain, href)`; if
`full_url.startswith(base_domain) and '/news/' in full_url and full_url not in
visited`, add to `visited`, append to `sitemap`, and break as soon as
`len(sitemap) >= max_articles`.  Returns the pair `(sitemap, visited)` to keep
the final visited set observable. -/
def loop (resolve : String → String) (max_articles : Int) :
    List String → List String → List String → List String × List String
  | [], visited, sitemap => (sitemap, visited)
  | href :: rest, visited, sitemap =>
    let full_url := resolve href
    if strStarts full_url base_domain ∧ strHasSub full_url newsMarker
        ∧ full_url ∉ visited then
      if max_articles ≤ ((sitemap ++ [full_url]).length : Int) then
        (sitemap ++ [full_url], visited ++ [full_url])
      else loop resolve max_articles rest (visited ++ [full_url]) (sitemap ++ [full_url])
    else loop resolve max_articles rest visited sitemap

/-- Model of `generate_sitemap` in `main.py` (lines 31-55): on a successful
fetch the anchor loop runs from empty state and the sitemap list is returned;
a `requests.RequestException` is caught and `[]` returned; any other exception
(e.g. from the parser) is not matched by the `except requests.RequestException`
clause and propagates. -/
def generate_sitemap (resolve : String → String) (outcome : FetchOutcome)
    (max_articles : Int) : Except Unit (List String) :=
  match outcome with
  | .success hrefs => .ok (loop resolve max_articles hrefs [] []).1
  | .requestError => .ok []
  | .parseError => .error ()

end MainPy

namespace SitemapPy

/-- The anchor loop of `generate_sitemap` in `generate_sitemap.py`
(lines 67-79): the same acceptance steps as in `main.py`, but with the
condition nested as `if is_valid_url(full_url, base_domain) and full_url not in
visited:` followed by `if '/news/' in full_url:`. -/
def loop (resolve : String → String) (max_articles : Int) :
    List String → List String → List String → List String × List String
  | [], visited, sitemap => (sitemap, visited)
  | href :: rest, visited, sitemap =>
    let full_url := resolve href
    if is_valid_url full_url base_domain ∧ full_url ∉ visited then
      if strHasSub full_url newsMarker then
        if max_articles ≤ ((sitemap ++ [full_url]).length : Int) then
          (sitemap ++ [full_url], visited ++ [full_url])
        else loop resolve max_articles rest (visited ++ [full_url]) (sitemap ++ [full_url])
      else loop resolve max_articles rest visited sitemap
    else loop resolve max_articles rest visited sitemap

/-- Model of `generate_sitemap` in `generate_sitemap.py` (lines 42-84): the
`try` block wraps fetch, parse and loop; `except requests.RequestException`
prints and falls through to `return sitemap` (still `[]`, since the exception
was raised before any append); any other exception propagates. -/
def generate_sitemap (resolve : String → String) (outcome : FetchOutcome)
    (max_articles : Int) : Except Unit (List String) :=
  match outcome with
  | .success hrefs => .ok (loop resolve max_articles hrefs [] []).1
  | .requestError => .ok []
  | .parseError => .error ()

end SitemapPy

/-- Acceptance test both implementations apply to a resolved URL: it starts
with the base domain and contains the news marker. -/
def urlOk (u : String) : Bool := strStarts u base_domain && strHasSub u newsMarker

/-- Order-preserving first-occurrence deduplication, as worded in claim C1:
a URL is kept at its first occurrence only. -/
def firstDedup : List String → List String → List String
  | [], _ => []
  | u :: rest, seen =>
    if u ∈ seen then firstDedup rest seen
    else u :: firstDedup rest (seen ++ [u])

/-- Reference computation worded in claim C1: resolve the hrefs in document
order, keep those passing `urlOk`, deduplicate keeping first occurrences, and
truncate to `max_articles` entries. -/
def referenceSitemap (resolve : String → String) (hrefs : List String)
    (max_articles : Int) : List String :=
  (firstDedup ((hrefs.map resolve).filter urlOk) []).take max_articles.toNat

/-- The two anchor loops differ only in how the acceptance condition is nested,
so they compute the same result from any state. -/
theorem loops_eq (resolve : String → String) (m : Int) :
    ∀ hrefs visited sitemap,
      MainPy.loop resolve m hrefs visited sitemap
        = SitemapPy.loop resolve m hrefs visited sitemap := by
  intro hrefs
  induction hrefs with
  | nil => intro visited sitemap; rfl
  | cons href rest ih =>
    intro visited sitemap
    simp only [MainPy.loop, SitemapPy.loop, is_valid_url]
    by_cases hA : strStarts (resolve href) base_domain = true
    · by_cases hB : strHasSub (resolve href) newsMarker = true
      · by_cases hC : resolve href ∈ visited
        · simp [hA, hB, hC, ih]
        · simp [hA, hB, hC, ih]
      · simp [hA, hB, ih]
    · simp [hA, ih]

/-- Characterization of the `main.py` anchor loop while the cap has not yet
been reached: it extends the accumulated sitemap with the first-occurrence
deduplication of the accepted resolved URLs, truncated at the remaining
capacity. -/
theorem MainPy.loop_eq_take (resolve : String → String) (m : Int) :
    ∀ hrefs visited sitemap, (sitemap.length : Int) < m →
      (MainPy.loop resolve m hrefs visited sitemap).1
        = sitemap ++ (firstDedup ((hrefs.map resolve).filter urlOk) visited).take
            (m.toNat - sitemap.length) := by
  intro hrefs
  induction hrefs with
  | nil => intro visited sitemap h; simp [MainPy.loop, firstDedup]
  | cons href rest ih =>
    intro visited sitemap h
    simp only [MainPy.loop, List.map_cons, List.filter_cons]
    by_cases hOk : urlOk (resolve href) = true
    · obtain ⟨hA, hB⟩ := Bool.and_eq_true_iff.mp hOk
      by_cases hv : resolve href ∈ visited
      · rw [if_neg (by simp [hv]), if_pos hOk]
        simp only [firstDedup, if_pos hv]
        exact ih visited sitemap h
      · rw [if_pos ⟨hA, hB, hv⟩, if_pos hOk]
        simp only [firstDedup, if_neg hv]
        have hk : m.toNat - sitemap.length = (m.toNat - (sitemap.length + 1)) + 1 := by
          omega
        rw [hk, List.take_succ_cons]
        by_cases hcap : m ≤ (((sitemap ++ [resolve href]).length : Nat) : Int)
        · rw [if_pos hcap]
          have : m.toNat - (sitemap.length + 1) = 0 := by
            simp at hcap; omega
          simp [this]
        · rw [if_neg hcap]
          have h' : (((sitemap ++ [resolve href]).length : Nat) : Int) < m := by
            omega
          rw [ih (visited ++ [resolve href]) (sitemap ++ [resolve href]) h']
          simp [hk]
    · rw [if_neg (fun hc => hOk (by simp [urlOk, hc.1, hc.2.1])), if_neg hOk]
      exact ih visited sitemap h

/-- A URL is appended only when it is not in the visited set, so the sitemap
accumulator stays duplicate-free. -/
theorem MainPy.loop_nodup (resolve : String → String) (m : Int) :
    ∀ hrefs visited sitemap, sitemap.Nodup → (∀ u ∈ sitemap, u ∈ visited) →
      ((MainPy.loop resolve m hrefs visited sitemap).1).Nodup := by
  intro hrefs
  induction hrefs with
  | nil => intro visited sitemap hnd _; simpa [MainPy.loop] using hnd
  | cons href rest ih =>
    intro visited sitemap hnd hsub
    simp only [MainPy.loop]
    by_cases hc : strStarts (resolve href) base_domain = true
        ∧ strHasSub (resolve href) newsMarker = true ∧ resolve href ∉ visited
    · rw [if_pos hc]
      have hnew : resolve href ∉ sitemap := fun hmem => hc.2.2 (hsub _ hmem)
      have hnd' : (sitemap ++ [resolve href]).Nodup := by
        simp [List.nodup_append, hnd, hnew]
      by_cases hcap : m ≤ (((sitemap ++ [resolve href]).length : Nat) : Int)
      · rw [if_pos hcap]; exact hnd'
      · rw [if_neg hcap]
        refine ih _ _ hnd' ?_
        intro u hu
        rcases List.mem_append.mp hu with h1 | h2
        · exact List.mem_append.mpr (Or.inl (hsub _ h1))
        · exact List.mem_append.mpr (Or.inr h2)
    · rw [if_neg hc]; exact ih _ _ hnd hsub

/-- Every URL the loop ever appends passes the acceptance test `urlOk`. -/
theorem MainPy.loop_mem_valid (resolve : String → String) (m : Int) :
    ∀ hrefs visited sitemap, (∀ u ∈ sitemap, urlOk u = true) →
      ∀ u ∈ (MainPy.loop resolve m hrefs visited sitemap).1, urlOk u = true := by
  intro hrefs
  induction hrefs with
  | nil => intro visited sitemap hs; simpa [MainPy.loop] using hs
  | cons href rest ih =>
    intro visited sitemap hs
    simp only [MainPy.loop]
    by_cases hc : strStarts (resolve href) base_domain = true
        ∧ strHasSub (resolve href) newsMarker = true ∧ resolve href ∉ visited
    · rw [if_pos hc]
      have hs' : ∀ u ∈ sitemap ++ [resolve href], urlOk u = true := by
        intro u hu
        rcases List.mem_append.mp hu with h1 | h2
        · exact hs _ h1
        · simp only [List.mem_singleton] at h2
          subst h2
          simp [urlOk, hc.1, hc.2.1]
      by_cases hcap : m ≤ (((sitemap ++ [resolve href]).length : Nat) : Int)
      · rw [if_pos hcap]; exact hs'
      · rw [if_neg hcap]; exact ih _ _ hs'
    · rw [if_neg hc]; exact ih _ _ hs

/-- Visited set and sitemap list are extended together, so they stay equal as
sets throughout the loop. -/
theorem MainPy.loop_visited_iff (resolve : String → String) (m : Int) :
    ∀ hrefs visited sitemap, (∀ u, u ∈ visited ↔ u ∈ sitemap) →
      ∀ u, u ∈ (MainPy.loop resolve m hrefs visited sitemap).2
        ↔ u ∈ (MainPy.loop resolve m hrefs visited sitemap).1 := by
  intro hrefs
  induction hrefs with
  | nil => intro visited sitemap hinv u; simpa [MainPy.loop] using hinv u
  | cons href rest ih =>
    intro visited sitemap hinv u
    simp only [MainPy.loop]
    by_cases hc : strStarts (resolve href) base_domain = true
        ∧ strHasSub (resolve href) newsMarker = true ∧ resolve href ∉ visited
    · rw [if_pos hc]
      have hinv' : ∀ v, v ∈ visited ++ [resolve href] ↔ v ∈ sitemap ++ [resolve href] := by
        intro v; simp [hinv v]
      by_cases hcap : m ≤ (((sitemap ++ [resolve href]).length : Nat) : Int)
      · rw [if_pos hcap]; simpa using hinv' u
      · rw [if_neg hcap]; exact ih _ _ hinv' u
    · rw [if_neg hc]; exact ih _ _ hinv u

/-- The loop's result never grows beyond the larger of the cap and one more
entry than it started with, because the cap is tested right after each
append. -/
theorem MainPy.loop_length_le (resolve : String → String) (m : Int) :
    ∀ hrefs visited sitemap,
      (((MainPy.loop resolve m hrefs visited sitemap).1.length : Nat) : Int)
        ≤ max m ((sitemap.length : Int) + 1) := by
  intro hrefs
  induction hrefs with
  | nil =>
    intro visited sitemap
    simp only [MainPy.loop]
    omega
  | cons href rest ih =>
    intro visited sitemap
    simp only [MainPy.loop]
    by_cases hc : strStarts (resolve href) base_domain = true
        ∧ strHasSub (resolve href) newsMarker = true ∧ resolve href ∉ visited
    · rw [if_pos hc]
      by_cases hcap : m ≤ (((sitemap ++ [resolve href]).length : Nat) : Int)
      · rw [if_pos hcap]
        simp only [List.length_append, List.length_singleton]
        omega
      · rw [if_neg hcap]
        have := ih (visited ++ [resolve href]) (sitemap ++ [resolve href])
        simp only [List.length_append, List.length_singleton] at this hcap ⊢
        omega
    · rw [if_neg hc]; exact ih _ _

/-- With a non-positive cap, the first accepted URL already meets the cap, so
the loop stops with exactly one entry as soon as some href qualifies. -/
theorem MainPy.loop_nonpos_length (resolve : String → String) (m : Int) (hm : m ≤ 0) :
    ∀ hrefs visited, (∃ h ∈ hrefs, urlOk (resolve h) = true ∧ resolve h ∉ visited) →
      (MainPy.loop resolve m hrefs visited []).1.length = 1 := by
  intro hrefs
  induction hrefs with
  | nil => rintro visited ⟨x, hxmem, _⟩; simp at hxmem
  | cons href rest ih =>
    rintro visited ⟨x, hxmem, hxok, hxnv⟩
    simp only [MainPy.loop]
    by_cases hc : strStarts (resolve href) base_domain = true
        ∧ strHasSub (resolve href) newsMarker = true ∧ resolve href ∉ visited
    · rw [if_pos hc]
      rw [if_pos (by simp only [List.nil_append, List.length_singleton,
        Nat.cast_one]; omega)]
      simp
    · rw [if_neg hc]
      apply ih
      simp only [urlOk, Bool.and_eq_true] at hxok
      rcases List.mem_cons.mp hxmem with rfl | hxr
      · exact absurd ⟨hxok.1, hxok.2, hxnv⟩ hc
      · exact ⟨x, hxr, by simp [urlOk, hxok.1, hxok.2], hxnv⟩

/-- Processing an href whose resolved URL is already in the loop's final
visited set is a no-op: inserting it anywhere after the point it was visited
leaves the run unchanged. -/
theorem MainPy.loop_dup_drop (resolve : String → String) (m : Int) (dup : String)
    (post : List String) :
    ∀ pre visited sitemap,
      resolve dup ∈ (MainPy.loop resolve m pre visited sitemap).2 →
      MainPy.loop resolve m (pre ++ dup :: post) visited sitemap
        = MainPy.loop resolve m (pre ++ post) visited sitemap := by
  intro pre
  induction pre with
  | nil =>
    intro visited sitemap hv
    simp only [MainPy.loop] at hv
    simp only [List.nil_append, MainPy.loop]
    rw [if_neg (fun hc => hc.2.2 hv)]
  | cons href rest ih =>
    intro visited sitemap hv
    simp only [MainPy.loop] at hv
    simp only [List.cons_append, MainPy.loop, List.append_eq]
    by_cases hc : strStarts (resolve href) base_domain = true
        ∧ strHasSub (resolve href) newsMarker = true ∧ resolve href ∉ visited
    · rw [if_pos hc] at hv
      rw [if_pos hc, if_pos hc]
      by_cases hcap : m ≤ (((sitemap ++ [resolve href]).length : Nat) : Int)
      · rw [if_pos hcap, if_pos hcap]
      · rw [if_neg hcap] at hv
        rw [if_neg hcap, if_neg hcap]
        exact ih _ _ hv
    · rw [if_neg hc] at hv
      rw [if_neg hc, if_neg hc]
      exact ih _ _ hv

example : MainPy.generate_sitemap id
    (.success ["https://www.kino.de/news/a", "https://www.kino.de/news/a",
      "https://www.kino.de/other/b", "https://www.kino.de/news/c"]) 10
    = .ok ["https://www.kino.de/news/a", "https://www.kino.de/news/c"] := by rfl

example : MainPy.generate_sitemap id (.success ["https://www.kino.de/news/a"]) 0
    = .ok ["https://www.kino.de/news/a"] := by rfl

example : SitemapPy.generate_sitemap id
    (.success ["https://www.kino.de/news/a", "https://other.com/news/x"]) 1
    = .ok ["https://www.kino.de/news/a"] := by rfl

example : referenceSitemap id
    (["https://www.kino.de/news/a", "https://www.kino.de/news/a",
      "https://www.kino.de/other/b", "https://www.kino.de/news/c"]) 10
    = ["https://www.kino.de/news/a", "https://www.kino.de/news/c"] := by rfl

/-- The two modelled implementations return the same value on every fetch
outcome. -/
theorem generate_sitemap_eq (resolve : String → String) (outcome : FetchOutcome)
    (m : Int) :
    MainPy.generate_sitemap resolve outcome m
      = SitemapPy.generate_sitemap resolve outcome m := by
  cases outcome with
  | success hrefs =>
    simp [MainPy.generate_sitemap, SitemapPy.generate_sitemap, loops_eq]
  | requestError => rfl
  | parseError => rfl

/-- Claim C1: for every positive max_articles and every successful fetch, both
generate_sitemap implementations return exactly the reference computation:
hrefs resolved and scanned in document order, a resolved URL accepted at its
first occurrence iff it starts with the base domain and contains '/news/',
accepted URLs appended in scan order, and the scan stopped as soon as the
result reaches max_articles entries. -/
theorem claimC1 (resolve : String → String) (hrefs : List String) (m : Int)
    (hm : 0 < m) :
    MainPy.generate_sitemap resolve (.success hrefs) m
        = .ok (referenceSitemap resolve hrefs m)
    ∧ SitemapPy.generate_sitemap resolve (.success hrefs) m
        = .ok (referenceSitemap resolve hrefs m) := by
  have h := MainPy.loop_eq_take resolve m hrefs [] [] (by simpa using hm)
  simp only [List.nil_append, List.length_nil, Nat.sub_zero] at h
  constructor
  · simp only [MainPy.generate_sitemap, h, referenceSitemap]
  · rw [← generate_sitemap_eq]
    simp only [MainPy.generate_sitemap, h, referenceSitemap]

/-- Witness for claim C1 at the spec's example scenario, transplanted to the
hardcoded kino.de base domain. -/
theorem claimC1_witness :
    (0 : Int) < 10
    ∧ (MainPy.generate_sitemap id
        (.success ["https://www.kino.de/news/a", "https://www.kino.de/news/a",
          "https://www.kino.de/other/b", "https://www.kino.de/news/c"]) 10
        = .ok (referenceSitemap id
            ["https://www.kino.de/news/a", "https://www.kino.de/news/a",
              "https://www.kino.de/other/b", "https://www.kino.de/news/c"] 10)
      ∧ SitemapPy.generate_sitemap id
        (.success ["https://www.kino.de/news/a", "https://www.kino.de/news/a",
          "https://www.kino.de/other/b", "https://www.kino.de/news/c"]) 10
        = .ok (referenceSitemap id
            ["https://www.kino.de/news/a", "https://www.kino.de/news/a",
              "https://www.kino.de/other/b", "https://www.kino.de/news/c"] 10)) :=
  ⟨by decide, claimC1 id _ 10 (by decide)⟩

/-- Claim C2 is violated by the code: with max_articles = 0 and a single
qualifying anchor, both implementations return a one-element list rather than
the empty list, because the cap is tested only after an append. -/
theorem claimC2_eval :
    MainPy.generate_sitemap id (.success ["https://www.kino.de/news/a"]) 0
        = .ok ["https://www.kino.de/news/a"]
    ∧ SitemapPy.generate_sitemap id (.success ["https://www.kino.de/news/a"]) 0
        = .ok ["https://www.kino.de/news/a"] :=
  ⟨rfl, rfl⟩

/-- Claim C3 as stated is false at this input: on a parser exception the run
does not return an empty list; the exception propagates to the caller. -/
theorem claimC3_counterexample :
    MainPy.generate_sitemap id FetchOutcome.parseError 10 = .error ()
    ∧ MainPy.generate_sitemap id FetchOutcome.parseError 10 ≠ .ok []
    ∧ SitemapPy.generate_sitemap id FetchOutcome.parseError 10 = .error () :=
  ⟨rfl, fun h => Except.noConfusion h, rfl⟩

/-- Claim C3 amended: a parser exception is not treated like a fetch failure;
only requests.RequestException is caught, so any exception raised while
processing the fetched content propagates to the caller unhandled and no list
is returned. -/
theorem claimC3_amended (resolve : String → String) (m : Int) :
    MainPy.generate_sitemap resolve FetchOutcome.parseError m = .error ()
    ∧ SitemapPy.generate_sitemap resolve FetchOutcome.parseError m = .error () :=
  ⟨rfl, rfl⟩

/-- Claim C4: on a failed fetch (network error or non-success HTTP status,
i.e. a requests.RequestException) both implementations return the empty list
and propagate no exception. -/
theorem claimC4 (resolve : String → String) (m : Int) :
    MainPy.generate_sitemap resolve FetchOutcome.requestError m = .ok []
    ∧ SitemapPy.generate_sitemap resolve FetchOutcome.requestError m = .ok [] :=
  ⟨rfl, rfl⟩

/-- Claim C5: for every href sequence, every max_articles and every fetch
outcome, no URL appears twice in a list returned by either implementation. -/
theorem claimC5 (resolve : String → String) (outcome : FetchOutcome) (m : Int)
    (l : List String)
    (h : MainPy.generate_sitemap resolve outcome m = .ok l
      ∨ SitemapPy.generate_sitemap resolve outcome m = .ok l) :
    l.Nodup := by
  have h' : MainPy.generate_sitemap resolve outcome m = .ok l := by
    rcases h with h | h
    · exact h
    · rw [generate_sitemap_eq]; exact h
  cases outcome with
  | success hrefs =>
    simp only [MainPy.generate_sitemap, Except.ok.injEq] at h'
    exact h' ▸ MainPy.loop_nodup resolve m hrefs [] [] List.nodup_nil (by simp)
  | requestError =>
    simp only [MainPy.generate_sitemap, Except.ok.injEq] at h'
    exact h' ▸ List.nodup_nil
  | parseError => exact Except.noConfusion h'

/-- Witness for claim C5 at a concrete input. -/
theorem claimC5_witness :
    (MainPy.generate_sitemap id (.success ["https://www.kino.de/news/a"]) 5
        = .ok ["https://www.kino.de/news/a"]
      ∨ SitemapPy.generate_sitemap id (.success ["https://www.kino.de/news/a"]) 5
        = .ok ["https://www.kino.de/news/a"])
    ∧ (["https://www.kino.de/news/a"] : List String).Nodup :=
  ⟨Or.inl rfl, claimC5 id (.success ["https://www.kino.de/news/a"]) 5
    ["https://www.kino.de/news/a"] (Or.inl rfl)⟩

/-- Claim C6: every URL in a list returned by either implementation starts
with the base domain (plain string-prefix match) and contains the substring
'/news/'. -/
theorem claimC6 (resolve : String → String) (outcome : FetchOutcome) (m : Int)
    (l : List String) (u : String)
    (h : MainPy.generate_sitemap resolve outcome m = .ok l
      ∨ SitemapPy.generate_sitemap resolve outcome m = .ok l)
    (hu : u ∈ l) :
    strStarts u base_domain = true ∧ strHasSub u newsMarker = true := by
  have h' : MainPy.generate_sitemap resolve outcome m = .ok l := by
    rcases h with h | h
    · exact h
    · rw [generate_sitemap_eq]; exact h
  cases outcome with
  | success hrefs =>
    simp only [MainPy.generate_sitemap, Except.ok.injEq] at h'
    have hmem : u ∈ (MainPy.loop resolve m hrefs [] []).1 := by
      rw [h']; exact hu
    have := MainPy.loop_mem_valid resolve m hrefs [] [] (by simp) u hmem
    simpa [urlOk, Bool.and_eq_true] using this
  | requestError =>
    simp only [MainPy.generate_sitemap, Except.ok.injEq] at h'
    subst h'
    simp at hu
  | parseError => exact Except.noConfusion h'

/-- Witness for claim C6 at a concrete input. -/
theorem claimC6_witness :
    (MainPy.generate_sitemap id (.success ["https://www.kino.de/news/a"]) 5
        = .ok ["https://www.kino.de/news/a"]
      ∨ SitemapPy.generate_sitemap id (.success ["https://www.kino.de/news/a"]) 5
        = .ok ["https://www.kino.de/news/a"])
    ∧ "https://www.kino.de/news/a" ∈ (["https://www.kino.de/news/a"] : List String)
    ∧ strStarts "https://www.kino.de/news/a" base_domain = true
    ∧ strHasSub "https://www.kino.de/news/a" newsMarker = true := by
  refine ⟨Or.inl rfl, by simp, ?_, ?_⟩
  · exact (claimC6 id (.success ["https://www.kino.de/news/a"]) 5
      ["https://www.kino.de/news/a"] "https://www.kino.de/news/a"
      (Or.inl rfl) (by simp)).1
  · exact (claimC6 id (.success ["https://www.kino.de/news/a"]) 5
      ["https://www.kino.de/news/a"] "https://www.kino.de/news/a"
      (Or.inl rfl) (by simp)).2

/-- Claim C7: at the end of a run of either anchor loop from the empty state,
the visited set holds exactly the URLs of the returned sitemap list. -/
theorem claimC7 (resolve : String → String) (hrefs : List String) (m : Int)
    (u : String) :
    (u ∈ (MainPy.loop resolve m hrefs [] []).2
      ↔ u ∈ (MainPy.loop resolve m hrefs [] []).1)
    ∧ (u ∈ (SitemapPy.loop resolve m hrefs [] []).2
      ↔ u ∈ (SitemapPy.loop resolve m hrefs [] []).1) := by
  constructor
  · exact MainPy.loop_visited_iff resolve m hrefs [] [] (by simp) u
  · rw [← loops_eq]
    exact MainPy.loop_visited_iff resolve m hrefs [] [] (by simp) u

/-- Claim C8: inserting an extra href that resolves to a URL already accepted
earlier in the scan leaves the returned list unchanged; the duplicate is
dropped by the visited-set check and consumes no max_articles slot. -/
theorem claimC8 (resolve : String → String) (pre post : List String)
    (dup : String) (m : Int)
    (hdup : resolve dup ∈ (MainPy.loop resolve m pre [] []).1) :
    MainPy.generate_sitemap resolve (.success (pre ++ dup :: post)) m
      = MainPy.generate_sitemap resolve (.success (pre ++ post)) m := by
  have hv : resolve dup ∈ (MainPy.loop resolve m pre [] []).2 :=
    (MainPy.loop_visited_iff resolve m pre [] [] (by simp) _).mpr hdup
  simp only [MainPy.generate_sitemap, Except.ok.injEq]
  rw [MainPy.loop_dup_drop resolve m dup post pre [] [] hv]

/-- Witness for claim C8 at a concrete input. -/
theorem claimC8_witness :
    id "https://www.kino.de/news/a"
        ∈ (MainPy.loop id 10 ["https://www.kino.de/news/a"] [] []).1
    ∧ MainPy.generate_sitemap id
        (.success (["https://www.kino.de/news/a"]
          ++ "https://www.kino.de/news/a" :: ["https://www.kino.de/news/b"])) 10
      = MainPy.generate_sitemap id
        (.success (["https://www.kino.de/news/a"]
          ++ ["https://www.kino.de/news/b"])) 10 :=
  ⟨by decide, claimC8 id _ _ _ 10 (by decide)⟩

/-- Claim C9: the implementations of generate_sitemap in main.py and
generate_sitemap.py are extensionally equal on every resolver, every fetch
outcome and every max_articles. -/
theorem claimC9 (resolve : String → String) (outcome : FetchOutcome) (m : Int) :
    MainPy.generate_sitemap resolve outcome m
      = SitemapPy.generate_sitemap resolve outcome m :=
  generate_sitemap_eq resolve outcome m

/-- Claim C10: since the cap is checked only after an append, any successful
run returns at most max(max_articles, 1) URLs, and when max_articles is
non-positive and at least one href qualifies, exactly one URL is returned. -/
theorem claimC10 (resolve : String → String) (hrefs : List String) (m : Int)
    (l : List String)
    (h : MainPy.generate_sitemap resolve (.success hrefs) m = .ok l
      ∨ SitemapPy.generate_sitemap resolve (.success hrefs) m = .ok l) :
    ((l.length : Nat) : Int) ≤ max m 1
    ∧ (m ≤ 0 → (∃ x ∈ hrefs, urlOk (resolve x) = true) → l.length = 1) := by
  have h' : MainPy.generate_sitemap resolve (.success hrefs) m = .ok l := by
    rcases h with h | h
    · exact h
    · rw [generate_sitemap_eq]; exact h
  simp only [MainPy.generate_sitemap, Except.ok.injEq] at h'
  subst h'
  constructor
  · have := MainPy.loop_length_le resolve m hrefs [] []
    simpa using this
  · rintro hm ⟨x, hx, hok⟩
    exact MainPy.loop_nonpos_length resolve m hm hrefs []
      ⟨x, hx, hok, by simp⟩

/-- Witness for claim C10 at a concrete input with a non-positive cap. -/
theorem claimC10_witness :
    (MainPy.generate_sitemap id (.success ["https://www.kino.de/news/a"]) 0
        = .ok ["https://www.kino.de/news/a"]
      ∨ SitemapPy.generate_sitemap id (.success ["https://www.kino.de/news/a"]) 0
        = .ok ["https://www.kino.de/news/a"])
    ∧ (0 : Int) ≤ 0
    ∧ (∃ x ∈ (["https://www.kino.de/news/a"] : List String),
        urlOk (id x) = true)
    ∧ (((["https://www.kino.de/news/a"] : List String).length : Nat) : Int)
        ≤ max 0 1
    ∧ (["https://www.kino.de/news/a"] : List String).length = 1 := by
  refine ⟨Or.inl rfl, le_refl 0,
    ⟨"https://www.kino.de/news/a", by simp, by decide⟩, ?_, ?_⟩
  · exact (claimC10 id ["https://www.kino.de/news/a"] 0
      ["https://www.kino.de/news/a"] (Or.inl rfl)).1
  · exact (claimC10 id ["https://www.kino.de/news/a"] 0
      ["https://www.kino.de/news/a"] (Or.inl rfl)).2 (le_refl 0)
      ⟨"https://www.kino.de/news/a", by simp, by decide⟩
